import Mathlib

/-
Verification of the Jenkins MCP server (function_app.py).

The development shallowly embeds the Python module `function_app.py`:
  * `Json` models parsed JSON values (the shapes `json.loads` can produce);
  * `PyExc` models the Python exceptions that can arise in the module
    (`Exception`, `requests.RequestException`, `KeyError`, `AttributeError`,
    `TypeError`), together with their `str()` rendering;
  * `get_jenkins_token`, `get_jenkins_jobs` and `list_jenkins_jobs` are
    translated line by line; stateful effects become explicit parameters:
    the environment is an `Env` record and the single outbound HTTP request
    goes through an oracle `net : Request → NetResult`, with every issued
    request recorded in a trace so that "no network call" properties are
    expressible.
-/

namespace JenkinsMCP

/-- A parsed JSON value, as produced by `json.loads` / `response.json()`. -/
inductive Json where
  | null : Json
  | bool (b : Bool) : Json
  | num (n : Int) : Json
  | str (s : String) : Json
  | arr (items : List Json) : Json
  | obj (fields : List (String × Json)) : Json


/-- Python exceptions that can arise in the module. `requestException`
covers `requests.RequestException` and all its subclasses (`HTTPError`,
`Timeout`, `ConnectionError`, `JSONDecodeError`). -/
inductive PyExc where
  | generic (msg : String) : PyExc
  | requestException (msg : String) : PyExc
  | keyError (key : String) : PyExc
  | attributeError (msg : String) : PyExc
  | typeError (msg : String) : PyExc


/-- Python `str(exception)`. For `KeyError` this is the `repr` of the key,
so `str(KeyError("name"))` is `'name'` with the quotes included. -/
def PyExc.message : PyExc → String
  | .generic m => m
  | .requestException m => m
  | .keyError k => "\x27" ++ k ++ "\x27"
  | .attributeError m => m
  | .typeError m => m

/-- Python `type(v).__name__` for a JSON value. -/
def Json.typeName : Json → String
  | .null => "NoneType"
  | .bool _ => "bool"
  | .num _ => "int"
  | .str _ => "str"
  | .arr _ => "list"
  | .obj _ => "dict"

/-- Python truthiness of a JSON value (`if v:`). -/
def Json.truthy : Json → Bool
  | .null => false
  | .bool b => b
  | .num n => n != 0
  | .str s => !s.isEmpty
  | .arr l => !l.isEmpty
  | .obj f => !f.isEmpty

mutual

/-- Python `repr()` of a JSON value (string escaping inside containers is
not reproduced; only top-level strings of the URL path ever matter and those
go through `pyStr`, which returns the string itself). -/
def Json.pyRepr : Json → String
  | .null => "None"
  | .bool true => "True"
  | .bool false => "False"
  | .num n => toString n
  | .str s => "\x27" ++ s ++ "\x27"
  | .arr l => "[" ++ pyReprList l ++ "]"
  | .obj f => "\x7b" ++ pyReprFields f ++ "\x7d"

/-- Comma-separated `repr`s of list elements. -/
def pyReprList : List Json → String
  | [] => ""
  | [x] => x.pyRepr
  | x :: y :: xs => x.pyRepr ++ ", " ++ pyReprList (y :: xs)

/-- Comma-separated `repr`s of dict entries. -/
def pyReprFields : List (String × Json) → String
  | [] => ""
  | [(k, v)] => "\x27" ++ k ++ "\x27: " ++ v.pyRepr
  | (k, v) :: y :: xs => "\x27" ++ k ++ "\x27: " ++ v.pyRepr ++ ", " ++ pyReprFields (y :: xs)

end

/-- Python `str()` of a JSON value, as used by f-string interpolation. -/
def Json.pyStr : Json → String
  | .str s => s
  | v => v.pyRepr

/-- One hex digit, lowercase (as `json.dumps` emits in escapes). -/
def hexDigit (n : Nat) : Char := "0123456789abcdef".toList.getD n '0'

/-- Four-digit lowercase hex, for `\uXXXX` escapes. -/
def hex4 (n : Nat) : String :=
  String.mk [hexDigit (n / 4096 % 16), hexDigit (n / 256 % 16),
             hexDigit (n / 16 % 16), hexDigit (n % 16)]

/-- How `json.dumps` (default options, `ensure_ascii=True`) renders one
character inside a string literal. -/
def jsonEscChar (c : Char) : String :=
  if c = '"' then "\\\""
  else if c = '\\' then "\\\\"
  else if c = '\n' then "\\n"
  else if c = '\t' then "\\t"
  else if c = '\r' then "\\r"
  else if c = '\x08' then "\\b"
  else if c = '\x0c' then "\\f"
  else if c.toNat < 0x20 then "\\u" ++ hex4 c.toNat
  else if c.toNat < 0x7f then String.singleton c
  else if c.toNat ≤ 0xffff then "\\u" ++ hex4 c.toNat
  else
    "\\u" ++ hex4 (0xd800 + (c.toNat - 0x10000) / 0x400) ++
    "\\u" ++ hex4 (0xdc00 + (c.toNat - 0x10000) % 0x400)

/-- A `json.dumps` string literal. -/
def dumpsString (s : String) : String :=
  "\"" ++ String.join (s.toList.map jsonEscChar) ++ "\""

mutual

/-- `json.dumps` with default separators. -/
def Json.dumps : Json → String
  | .null => "null"
  | .bool true => "true"
  | .bool false => "false"
  | .num n => toString n
  | .str s => dumpsString s
  | .arr l => "[" ++ dumpsList l ++ "]"
  | .obj f => "\x7b" ++ dumpsFields f ++ "\x7d"

/-- Comma-separated dumps of array elements. -/
def dumpsList : List Json → String
  | [] => ""
  | [x] => x.dumps
  | x :: y :: xs => x.dumps ++ ", " ++ dumpsList (y :: xs)

/-- Comma-separated dumps of object entries. -/
def dumpsFields : List (String × Json) → String
  | [] => ""
  | [(k, v)] => dumpsString k ++ ": " ++ v.dumps
  | (k, v) :: y :: xs => dumpsString k ++ ": " ++ v.dumps ++ ", " ++ dumpsFields (y :: xs)

end

/-- `a.startsWith b` on character lists. -/
def chListStarts : List Char → List Char → Bool
  | [], _ => true
  | _ :: _, [] => false
  | a :: as, b :: bs => a == b && chListStarts as bs

/-- Substring occurrence on character lists: does `n` occur contiguously in
the second list? -/
def chListHas (n : List Char) : List Char → Bool
  | [] => chListStarts n []
  | b :: bs => chListStarts n (b :: bs) || chListHas n bs

/-- Python `needle in hay` for strings: contiguous substring containment
(the empty needle is contained in everything). -/
def pyIn (needle hay : String) : Bool := chListHas needle.toList hay.toList

/-- UTF-8 encoding of one character, as `str.encode()` produces. -/
def utf8Bytes (c : Char) : List Nat :=
  let n := c.toNat
  if n < 0x80 then [n]
  else if n < 0x800 then [0xc0 + n / 64, 0x80 + n % 64]
  else if n < 0x10000 then [0xe0 + n / 4096, 0x80 + n / 64 % 64, 0x80 + n % 64]
  else [0xf0 + n / 262144, 0x80 + n / 4096 % 64, 0x80 + n / 64 % 64, 0x80 + n % 64]

/-- UTF-8 bytes of a string (`s.encode()`). -/
def strBytes (s : String) : List Nat := (s.toList.map utf8Bytes).flatten

/-- The base64 alphabet. -/
def b64Digits : List Char :=
  "ABCDEFGHIJKLMNOPQRSTUVWXYZabcdefghijklmnopqrstuvwxyz0123456789+/".toList

/-- One base64 digit. -/
def b64Char (n : Nat) : Char := b64Digits.getD n 'A'

/-- `base64.b64encode(bytes).decode()`: standard base64 with padding. -/
def b64encode : List Nat → String
  | [] => ""
  | [a] => String.mk [b64Char (a / 4), b64Char (a % 4 * 16)] ++ "=="
  | [a, b] => String.mk [b64Char (a / 4), b64Char (a % 4 * 16 + b / 16),
                         b64Char (b % 16 * 4)] ++ "="
  | a :: b :: c :: rest =>
      String.mk [b64Char (a / 4), b64Char (a % 4 * 16 + b / 16),
                 b64Char (b % 16 * 4 + c / 64), b64Char (c % 64)] ++ b64encode rest

/-- Process environment: the two variables the module reads.
`none` models an unset variable (`os.environ.get` returning `None`). -/
structure Env where
  Token : Option String
  JENKINS_USER : Option String


/-- f-string interpolation of an optional string: `None` prints as "None". -/
def pyOptStr : Option String → String
  | none => "None"
  | some s => s

/-- The single outbound HTTP request `requests.get(url, headers=headers,
timeout=10)` issues, with the two headers built by `get_jenkins_jobs`. -/
structure Request where
  url : String
  authHeader : String
  contentType : String
  timeout : Nat


/-- The response body as seen through `response.json()`: either a parsed
JSON value or a parse failure (`requests.exceptions.JSONDecodeError`, a
subclass of `RequestException`). -/
inductive Body where
  | malformed (msg : String) : Body
  | parsed (v : Json) : Body


/-- Outcome of `requests.get`: either a raised `RequestException`
(timeout, connection error) or an HTTP response with status, reason
phrase and body. -/
inductive NetResult where
  | exc (msg : String) : NetResult
  | resp (status : Nat) (reason : String) (body : Body) : NetResult


/-- `Response.raise_for_status` error message (from requests' source):
`"{code} Client Error: {reason} for url: {url}"` for 4xx and
`"{code} Server Error: {reason} for url: {url}"` for 5xx. -/
def raiseForStatusMsg (code : Nat) (reason url : String) : String :=
  if code < 500 then toString code ++ " Client Error: " ++ reason ++ " for url: " ++ url
  else toString code ++ " Server Error: " ++ reason ++ " for url: " ++ url

/-- Python `v.get(k, dflt)`: dictionary lookup with default; any non-dict
receiver raises `AttributeError`. -/
def pyGet (v : Json) (k : String) (dflt : Json) : Except PyExc Json :=
  match v with
  | .obj fields => .ok ((List.lookup k fields).getD dflt)
  | other => .error (.attributeError
      ("\x27" ++ other.typeName ++ "\x27 object has no attribute \x27get\x27"))

/-- Python `str.lower()`, character by character (exact on ASCII, which is
all the module ever compares). -/
def lowerStr (s : String) : String := String.mk (s.toList.map Char.toLower)

/-- Python `v.lower()`: only strings have `lower`. -/
def pyLower (v : Json) : Except PyExc String :=
  match v with
  | .str s => .ok (lowerStr s)
  | other => .error (.attributeError
      ("\x27" ++ other.typeName ++ "\x27 object has no attribute \x27lower\x27"))

/-- Python `v[k]` for a string key `k`: dict lookup raising `KeyError`
when the key is absent; other receivers raise `TypeError`. -/
def pySubscript (v : Json) (k : String) : Except PyExc Json :=
  match v with
  | .obj fields =>
    match List.lookup k fields with
    | some x => .ok x
    | none => .error (.keyError k)
  | .str _ => .error (.typeError "string indices must be integers")
  | .arr _ => .error (.typeError "list indices must be integers or slices, not str")
  | .num _ => .error (.typeError "\x27int\x27 object is not subscriptable")
  | .bool _ => .error (.typeError "\x27bool\x27 object is not subscriptable")
  | .null => .error (.typeError "\x27NoneType\x27 object is not subscriptable")

/-- The list comprehension
`[job for job in jobs if search_string.lower() in job["name"].lower()]`
over an explicit element list; evaluation is left to right and the first
failing element's exception propagates. `sl` is the already lowered search
string. -/
def filterJobsList (sl : String) : List Json → Except PyExc (List Json)
  | [] => .ok []
  | job :: rest =>
    match pySubscript job "name" with
    | .error e => .error e
    | .ok nameVal =>
      match pyLower nameVal with
      | .error e => .error e
      | .ok nameLower =>
        match filterJobsList sl rest with
        | .error e => .error e
        | .ok filteredRest =>
          .ok (if pyIn sl nameLower then job :: filteredRest else filteredRest)

/-- The same comprehension over an arbitrary JSON value: lists iterate
their elements, strings iterate their characters (length-1 strings), dicts
iterate their keys, everything else raises `TypeError: not iterable`. -/
def filterJobs (sl : String) (jobs : Json) : Except PyExc Json :=
  match jobs with
  | .arr l => (filterJobsList sl l).map .arr
  | .str s => (filterJobsList sl (s.toList.map (fun c => .str (String.singleton c)))).map .arr
  | .obj f => (filterJobsList sl (f.map (fun kv => .str kv.1))).map .arr
  | .null => .error (.typeError "\x27NoneType\x27 object is not iterable")
  | .num _ => .error (.typeError "\x27int\x27 object is not iterable")
  | .bool _ => .error (.typeError "\x27bool\x27 object is not iterable")

/-- `get_jenkins_token` (function_app.py lines 48-63): read `Token` and
`JENKINS_USER` from the environment; a missing or empty token raises
`Exception("Jenkins API token not configured.")`. -/
def get_jenkins_token (env : Env) : Except PyExc (Option String × String) :=
  match env.Token with
  | none => .error (.generic "Jenkins API token not configured.")
  | some t =>
    if t = "" then .error (.generic "Jenkins API token not configured.")
    else .ok (env.JENKINS_USER, t)

/-- The request URL `f"https://{jenkins_fqdn}/api/json?tree=jobs[name,url]"`. -/
def jenkinsUrl (jenkins_fqdn : Json) : String :=
  "https://" ++ jenkins_fqdn.pyStr ++ "/api/json?tree=jobs[name,url]"

/-- The `try:` block of `get_jenkins_jobs` (lines 84-92): issue the GET,
`raise_for_status`, parse the body, extract `jobs` (default `[]`), filter
when `search_string` is truthy. `RequestException`s raised here are caught
by the surrounding `except`; everything else propagates. -/
def jenkins_request_try (net : Request → NetResult) (req : Request)
    (search_string : Json) : Except PyExc Json :=
  match net req with
  | .exc m => .error (.requestException m)
  | .resp status reason body =>
    if 400 ≤ status ∧ status < 600 then
      .error (.requestException (raiseForStatusMsg status reason req.url))
    else
      match body with
      | .malformed m => .error (.requestException m)
      | .parsed bodyJson =>
        match pyGet bodyJson "jobs" (.arr []) with
        | .error e => .error e
        | .ok jobs =>
          if search_string.truthy then
            match pyLower search_string with
            | .error e => .error e
            | .ok sl =>
              match filterJobs sl jobs with
              | .error e => .error e
              | .ok filtered => .ok (.obj [("jobs", filtered)])
          else
            .ok (.obj [("jobs", jobs)])

/-- `get_jenkins_jobs` (lines 65-95). The returned trace lists the HTTP
requests issued, in order; `.error e` models an exception escaping the
function (only `requests.RequestException` is caught by its handler,
producing the `{"error": ...}` dict). -/
def get_jenkins_jobs (env : Env) (net : Request → NetResult)
    (jenkins_fqdn : Json) (search_string : Json) :
    Except PyExc Json × List Request :=
  match get_jenkins_token env with
  | .error e => (.error e, [])
  | .ok (username, token) =>
    let userpass := pyOptStr username ++ ":" ++ token
    let b64_userpass := b64encode (strBytes userpass)
    let req : Request :=
      { url := jenkinsUrl jenkins_fqdn,
        authHeader := "Basic " ++ b64_userpass,
        contentType := "application/json",
        timeout := 10 }
    match jenkins_request_try net req search_string with
    | .ok v => (.ok v, [req])
    | .error (.requestException m) => (.ok (.obj [("error", .str m)]), [req])
    | .error e => (.error e, [req])

/-- The `try:` block of `list_jenkins_jobs` (lines 115-125). The context
argument models the outcome of `json.loads(context)`: `.error m` is a raised
`json.JSONDecodeError` whose `str()` is `m`. -/
def list_jenkins_jobs_try (env : Env) (net : Request → NetResult)
    (context : Except String Json) : Except PyExc Json × List Request :=
  match context with
  | .error m => (.error (.generic m), [])
  | .ok content =>
    match pyGet content "arguments" (.obj []) with
    | .error e => (.error e, [])
    | .ok args =>
      match pyGet args "jenkinsServerFQDN" .null with
      | .error e => (.error e, [])
      | .ok jenkins_fqdn =>
        match pyGet args "searchString" .null with
        | .error e => (.error e, [])
        | .ok search_string =>
          if jenkins_fqdn.truthy then
            get_jenkins_jobs env net jenkins_fqdn search_string
          else
            (.ok (.obj [("error", .str "Jenkins server FQDN is required.")]), [])

/-- `list_jenkins_jobs` (lines 105-128): run the try block; serialize the
result with `json.dumps`; the outer `except Exception` converts any escaped
exception to `json.dumps({"error": str(ex)})`. The second component is the
trace of HTTP requests issued during the invocation. -/
def list_jenkins_jobs (env : Env) (net : Request → NetResult)
    (context : Except String Json) : String × List Request :=
  match list_jenkins_jobs_try env net context with
  | (.ok v, tr) => (Json.dumps v, tr)
  | (.error e, tr) => (Json.dumps (.obj [("error", .str e.message)]), tr)

/-- The case-insensitive name filter of line 91, as a Boolean predicate on a
job value: the job is a dict whose `name` entry is a string containing the
(already lowered) search string `sl`, case-insensitively. -/
def jobMatches (sl : String) (j : Json) : Bool :=
  match j with
  | .obj fields =>
    match List.lookup "name" fields with
    | some (.str name) => pyIn sl (lowerStr name)
    | _ => false
  | _ => false

/-- A job object of the shape the Jenkins endpoint documents: a dict with a
string-valued `name` entry. -/
def WellFormedJob (j : Json) : Prop :=
  ∃ fields name, j = .obj fields ∧ List.lookup "name" fields = some (.str name)

/-- Does a JSON value (as a dict) carry the key `k`? -/
def hasKey (j : Json) (k : String) : Bool :=
  match j with
  | .obj f => (List.lookup k f).isSome
  | _ => false

/-- The request `get_jenkins_jobs` builds once the token resolved to `token`
and the username to `username` (lines 76-83 folded together). -/
def mkRequest (username : Option String) (token : String) (fqdn : Json) : Request :=
  { url := jenkinsUrl fqdn,
    authHeader := "Basic " ++ b64encode (strBytes (pyOptStr username ++ ":" ++ token)),
    contentType := "application/json",
    timeout := 10 }

/-- A job object whose `name` entry, when present, is a string (the only
shapes the Jenkins endpoint returns). -/
def OkJob (j : Json) : Prop :=
  ∃ fields, j = .obj fields ∧
    (List.lookup "name" fields = none ∨
     ∃ nm, List.lookup "name" fields = some (.str nm))

/-- Sample job objects, as in the worked example of the specification. -/
def jobPipelineA : Json :=
  .obj [("name", .str "Pipeline-A"), ("url", .str "https://jenkins.example.com/job/Pipeline-A/")]

/-- Second sample job. -/
def jobBuildB : Json :=
  .obj [("name", .str "Build-B"), ("url", .str "https://jenkins.example.com/job/Build-B/")]

/-- Third sample job. -/
def jobPipelineC : Json :=
  .obj [("name", .str "pipeline-C"), ("url", .str "https://jenkins.example.com/job/pipeline-C/")]

/-- The sample job list. -/
def sampleJobs : List Json := [jobPipelineA, jobBuildB, jobPipelineC]

/-- A sample environment with both variables set. -/
def sampleEnv : Env := { Token := some "tok", JENKINS_USER := some "user" }

/-- A remote endpoint that always answers 200 with the sample job list. -/
def sampleNet : Request → NetResult :=
  fun _ => .resp 200 "OK" (.parsed (.obj [("jobs", .arr sampleJobs)]))

section Lemmas

/-- Unfolding of `get_jenkins_jobs` when the token resolves. -/
theorem get_jenkins_jobs_token_some (env : Env) (net : Request → NetResult)
    (fqdn ss : Json) (t : String) (h1 : env.Token = some t) (h2 : t ≠ "") :
    get_jenkins_jobs env net fqdn ss =
      (match jenkins_request_try net (mkRequest env.JENKINS_USER t fqdn) ss with
       | .ok v => .ok v
       | .error (.requestException m) => .ok (.obj [("error", .str m)])
       | .error e => .error e,
       [mkRequest env.JENKINS_USER t fqdn]) := by
  simp only [get_jenkins_jobs, get_jenkins_token, h1, h2, mkRequest]
  simp only [if_false]
  cases htry : jenkins_request_try net
      { url := jenkinsUrl fqdn,
        authHeader := "Basic " ++ b64encode (strBytes (pyOptStr env.JENKINS_USER ++ ":" ++ t)),
        contentType := "application/json", timeout := 10 } ss with
  | ok v => simp [htry]
  | error e => cases e <;> simp [htry]

/-- Unfolding of the handler's try block once the context parsed to a dict
whose `arguments` entry is the dict `a`. -/
theorem list_try_args (env : Env) (net : Request → NetResult)
    (c a : List (String × Json))
    (harg : List.lookup "arguments" c = some (.obj a)) :
    list_jenkins_jobs_try env net (.ok (.obj c)) =
      (if ((List.lookup "jenkinsServerFQDN" a).getD .null).truthy then
         get_jenkins_jobs env net ((List.lookup "jenkinsServerFQDN" a).getD .null)
           ((List.lookup "searchString" a).getD .null)
       else
         (.ok (.obj [("error", .str "Jenkins server FQDN is required.")]), [])) := by
  simp [list_jenkins_jobs_try, pyGet, harg]

/-- On a list of well-formed jobs the comprehension of line 91 succeeds and
computes `List.filter` of the case-insensitive name predicate. -/
theorem filterJobsList_eq_filter (sl : String) (jobs : List Json)
    (hwf : ∀ j ∈ jobs, WellFormedJob j) :
    filterJobsList sl jobs = .ok (jobs.filter (jobMatches sl)) := by
  induction jobs with
  | nil => rfl
  | cons j rest ih =>
    obtain ⟨fields, name, rfl, hname⟩ := hwf j (List.mem_cons_self _ _)
    have hrest := ih (fun x hx => hwf x (List.mem_cons_of_mem _ hx))
    simp [filterJobsList, pySubscript, hname, pyLower, hrest, jobMatches,
      List.filter_cons]

/-- If every job is a dict whose `name` is a string when present, and some
job lacks `name`, the comprehension of line 91 raises `KeyError('name')`. -/
theorem filterJobsList_missing_name (sl : String) (jobs : List Json)
    (hok : ∀ j ∈ jobs, OkJob j)
    (hmiss : ∃ fields, Json.obj fields ∈ jobs ∧ List.lookup "name" fields = none) :
    filterJobsList sl jobs = .error (.keyError "name") := by
  induction jobs with
  | nil =>
    obtain ⟨_, hmem, _⟩ := hmiss
    cases hmem
  | cons j rest ih =>
    obtain ⟨fields, rfl, hdisj⟩ := hok j (List.mem_cons_self _ _)
    rcases hdisj with hnone | ⟨nm, hname⟩
    · simp [filterJobsList, pySubscript, hnone]
    · have hrest : ∃ fields, Json.obj fields ∈ rest ∧ List.lookup "name" fields = none := by
        obtain ⟨f2, hf2mem, hf2⟩ := hmiss
        rcases List.mem_cons.mp hf2mem with heq | hmem
        · injection heq with h2
          subst h2
          rw [hname] at hf2
          cases hf2
        · exact ⟨f2, hmem, hf2⟩
      have hfr := ih (fun x hx => hok x (List.mem_cons_of_mem _ hx)) hrest
      simp [filterJobsList, pySubscript, hname, pyLower, hfr]

/-- Unfolding of the `try:` block on a 2xx/3xx response with a parsed dict
body. -/
theorem jenkins_request_try_success (net : Request → NetResult) (req : Request)
    (ss : Json) (status : Nat) (reason : String)
    (bodyFields : List (String × Json))
    (hnet : net req = .resp status reason (.parsed (.obj bodyFields)))
    (hstatus : status < 400) :
    jenkins_request_try net req ss =
      (if ss.truthy then
         match pyLower ss with
         | .error e => .error e
         | .ok sl =>
           match filterJobs sl ((List.lookup "jobs" bodyFields).getD (.arr [])) with
           | .error e => .error e
           | .ok filtered => .ok (.obj [("jobs", filtered)])
       else .ok (.obj [("jobs", (List.lookup "jobs" bodyFields).getD (.arr []))])) := by
  have hno : ¬(400 ≤ status ∧ status < 600) := by omega
  simp [jenkins_request_try, hnet, hno, pyGet]

/-- A successful `try:` block of `get_jenkins_jobs` always returns a
single-key `jobs` dict. -/
theorem jenkins_request_try_ok_shape (net : Request → NetResult) (req : Request)
    (ss : Json) (v : Json) (h : jenkins_request_try net req ss = .ok v) :
    ∃ x, v = .obj [("jobs", x)] := by
  unfold jenkins_request_try at h
  repeat' split at h
  all_goals cases h
  all_goals exact ⟨_, rfl⟩

/-- A normal return of `get_jenkins_jobs` is a single-key `jobs` dict or a
single-key `error` dict. -/
theorem get_jenkins_jobs_ok_shape (env : Env) (net : Request → NetResult)
    (fqdn ss : Json) (v : Json)
    (h : (get_jenkins_jobs env net fqdn ss).1 = .ok v) :
    (∃ x, v = .obj [("jobs", x)]) ∨ (∃ m, v = .obj [("error", .str m)]) := by
  unfold get_jenkins_jobs at h
  split at h
  · simp at h
  · dsimp only at h
    split at h
    · rename_i v' htry
      simp at h
      exact .inl (h ▸ jenkins_request_try_ok_shape _ _ _ _ htry)
    · rename_i m htry
      simp at h
      exact .inr ⟨m, h.symm⟩
    · simp at h

/-- A normal return of the handler's try block is a single-key `jobs` dict
or a single-key `error` dict. -/
theorem list_try_ok_shape (env : Env) (net : Request → NetResult)
    (ctx : Except String Json) (v : Json)
    (h : (list_jenkins_jobs_try env net ctx).1 = .ok v) :
    (∃ x, v = .obj [("jobs", x)]) ∨ (∃ m, v = .obj [("error", .str m)]) := by
  unfold list_jenkins_jobs_try at h
  split at h
  · simp at h
  · split at h
    · simp at h
    · split at h
      · simp at h
      · split at h
        · simp at h
        · split at h
          · exact get_jenkins_jobs_ok_shape _ _ _ _ _ h
          · simp at h
            exact .inr ⟨_, h.symm⟩

end Lemmas

/-- C2: for every raw context (including non-JSON text, JSON of unexpected
shape, and any exception arising in credential lookup, the network call or
response handling) the handler `list_jenkins_jobs` returns normally with a
serialized JSON string, and every exception reaching the outermost handler
is converted to the serialization of `{"error": <exception message>}`. -/
theorem C2_handler_total_and_catches
    (env : Env) (net : Request → NetResult) (ctx : Except String Json) :
    (∃ j : Json, (list_jenkins_jobs env net ctx).1 = j.dumps) ∧
    (∀ e tr, list_jenkins_jobs_try env net ctx = (.error e, tr) →
      (list_jenkins_jobs env net ctx).1 =
        Json.dumps (.obj [("error", .str e.message)])) := by
  constructor
  · rcases h : list_jenkins_jobs_try env net ctx with ⟨r, tr⟩
    cases r with
    | ok v => exact ⟨v, by simp [list_jenkins_jobs, h]⟩
    | error e => exact ⟨.obj [("error", .str e.message)], by simp [list_jenkins_jobs, h]⟩
  · intro e tr h
    simp [list_jenkins_jobs, h]

/-- Witness for C2 at a concrete failing context (`json.loads` failure). -/
theorem C2_witness :
    (list_jenkins_jobs ⟨some "tok", none⟩ (fun _ => .exc "down")
        (.error "Expecting value: line 1 column 1 (char 0)")).1 =
      Json.dumps (.obj [("error", .str "Expecting value: line 1 column 1 (char 0)")]) :=
  (C2_handler_total_and_catches ⟨some "tok", none⟩ (fun _ => .exc "down")
      (.error "Expecting value: line 1 column 1 (char 0)")).2
    (.generic "Expecting value: line 1 column 1 (char 0)") [] (by rfl)

/-- C3: when the parsed arguments lack `jenkinsServerFQDN` (absent or the
empty string) the handler returns exactly the serialization of
`{"error": "Jenkins server FQDN is required."}` and issues no HTTP
request. -/
theorem C3_missing_fqdn_no_network (env : Env) (net : Request → NetResult)
    (c a : List (String × Json))
    (harg : List.lookup "arguments" c = some (.obj a))
    (hfq : List.lookup "jenkinsServerFQDN" a = none ∨
           List.lookup "jenkinsServerFQDN" a = some (.str "")) :
    list_jenkins_jobs env net (.ok (.obj c)) =
      ("\x7b\"error\": \"Jenkins server FQDN is required.\"\x7d", []) := by
  have htry := list_try_args env net c a harg
  have hfalse : ((List.lookup "jenkinsServerFQDN" a).getD .null).truthy = false := by
    rcases hfq with h | h
    · simp [h, Json.truthy]
    · simp only [h, Option.getD_some, Json.truthy, Bool.not_eq_false']
      rfl
  simp only [list_jenkins_jobs, htry, hfalse, if_false, Bool.false_eq_true]
  rfl

/-- Witness for C3: arguments object with no `jenkinsServerFQDN` key. -/
theorem C3_witness :
    list_jenkins_jobs ⟨some "tok", none⟩ (fun _ => .exc "unreachable")
        (.ok (.obj [("arguments", .obj [("searchString", .str "pipe")])])) =
      ("\x7b\"error\": \"Jenkins server FQDN is required.\"\x7d", []) :=
  C3_missing_fqdn_no_network _ _ _ _ (by rfl) (.inl (by rfl))

/-- C1: with a configured token and a non-empty filter string, on any job
list of named jobs returned by the remote endpoint, `get_jenkins_jobs`
returns exactly the order-preserving subsequence of jobs whose lower-cased
name contains the lower-cased filter substring: the result is `List.filter`
of the case-insensitive predicate, every returned job satisfies it, no job
satisfying it is excluded, and the result is a sublist of the input. -/
theorem C1_filter_exact_subsequence
    (env : Env) (t : String) (htok : env.Token = some t) (htne : t ≠ "")
    (net : Request → NetResult) (fqdn : Json) (s : String) (hs : s ≠ "")
    (reason : String) (jobs : List Json)
    (hnet : ∀ r, net r = .resp 200 reason (.parsed (.obj [("jobs", .arr jobs)])))
    (hwf : ∀ j ∈ jobs, WellFormedJob j) :
    (get_jenkins_jobs env net fqdn (.str s)).1 =
        .ok (.obj [("jobs", .arr (jobs.filter (jobMatches (lowerStr s))))]) ∧
    (∀ j ∈ jobs.filter (jobMatches (lowerStr s)), jobMatches (lowerStr s) j = true) ∧
    (∀ j ∈ jobs, jobMatches (lowerStr s) j = true →
        j ∈ jobs.filter (jobMatches (lowerStr s))) ∧
    List.Sublist (jobs.filter (jobMatches (lowerStr s))) jobs := by
  refine ⟨?_, fun j hj => (List.mem_filter.mp hj).2,
    fun j hj hp => List.mem_filter.mpr ⟨hj, hp⟩, List.filter_sublist _⟩
  have hne : s.isEmpty = false := by
    cases hne : s.isEmpty
    · rfl
    · exact absurd ((String.isEmpty_iff s).mp hne) hs
  have h2 : jenkins_request_try net (mkRequest env.JENKINS_USER t fqdn) (.str s) =
      .ok (.obj [("jobs", .arr (jobs.filter (jobMatches (lowerStr s))))]) := by
    rw [jenkins_request_try_success net _ (.str s) 200 reason _ (hnet _) (by omega)]
    simp [Json.truthy, hne, pyLower, filterJobs, List.lookup, Except.map,
      filterJobsList_eq_filter (lowerStr s) jobs hwf]
  rw [get_jenkins_jobs_token_some env net fqdn (.str s) t htok htne, h2]

/-- Witness for C1: the worked example of the specification, filter "pipe"
against Pipeline-A, Build-B, pipeline-C: the result keeps exactly
Pipeline-A and pipeline-C, in order. -/
theorem C1_witness :
    (get_jenkins_jobs sampleEnv sampleNet (.str "jenkins.example.com") (.str "pipe")).1 =
        .ok (.obj [("jobs", .arr (sampleJobs.filter (jobMatches (lowerStr "pipe"))))]) ∧
    sampleJobs.filter (jobMatches (lowerStr "pipe")) = [jobPipelineA, jobPipelineC] :=
  ⟨(C1_filter_exact_subsequence sampleEnv "tok" rfl (by decide) sampleNet
      (.str "jenkins.example.com") "pipe" (by decide) "OK" sampleJobs
      (fun _ => rfl)
      (by
        intro j hj
        simp only [sampleJobs, List.mem_cons, List.not_mem_nil, or_false] at hj
        rcases hj with rfl | rfl | rfl
        · exact ⟨_, "Pipeline-A", rfl, rfl⟩
        · exact ⟨_, "Build-B", rfl, rfl⟩
        · exact ⟨_, "pipeline-C", rfl, rfl⟩)).1,
   by rfl⟩

/-- C4: when the configured token is absent or empty, `get_jenkins_token`
fails before any network I/O — `get_jenkins_jobs` issues no request and
escapes with the configuration exception — and the invocation's output is
exactly the serialization of
`{"error": "Jenkins API token not configured."}` with an empty request
trace. -/
theorem C4_missing_token_no_network
    (env : Env) (htok : env.Token = none ∨ env.Token = some "")
    (net : Request → NetResult) (fqdn ss : Json)
    (c a : List (String × Json)) (f : Json)
    (harg : List.lookup "arguments" c = some (.obj a))
    (hf : List.lookup "jenkinsServerFQDN" a = some f)
    (hft : f.truthy = true) :
    get_jenkins_jobs env net fqdn ss =
      (.error (.generic "Jenkins API token not configured."), []) ∧
    list_jenkins_jobs env net (.ok (.obj c)) =
      ("\x7b\"error\": \"Jenkins API token not configured.\"\x7d", []) := by
  have hgt : get_jenkins_token env =
      .error (.generic "Jenkins API token not configured.") := by
    rcases htok with h | h <;> simp [get_jenkins_token, h]
  have hg : ∀ fq sstr, get_jenkins_jobs env net fq sstr =
      (.error (.generic "Jenkins API token not configured."), []) := by
    intro fq sstr
    simp [get_jenkins_jobs, hgt]
  refine ⟨hg fqdn ss, ?_⟩
  have htry := list_try_args env net c a harg
  rw [hf, Option.getD_some] at htry
  simp only [hft, if_true] at htry
  rw [hg] at htry
  simp only [list_jenkins_jobs, htry]
  rfl

/-- Witness for C4: empty token, well-formed context with a server name. -/
theorem C4_witness :
    get_jenkins_jobs ⟨some "", some "user"⟩ sampleNet (.str "jenkins.example.com") .null =
      (.error (.generic "Jenkins API token not configured."), []) ∧
    list_jenkins_jobs ⟨some "", some "user"⟩ sampleNet
        (.ok (.obj [("arguments", .obj [("jenkinsServerFQDN", .str "jenkins.example.com")])])) =
      ("\x7b\"error\": \"Jenkins API token not configured.\"\x7d", []) :=
  C4_missing_token_no_network ⟨some "", some "user"⟩ (.inr rfl) sampleNet
    (.str "jenkins.example.com") .null
    [("arguments", .obj [("jenkinsServerFQDN", .str "jenkins.example.com")])]
    [("jenkinsServerFQDN", .str "jenkins.example.com")]
    (.str "jenkins.example.com") rfl rfl (by decide)

/-- C5: with a configured token, every network-layer failure of the single
GET — a raised request exception (timeout, connection error), a 4xx/5xx
status, or a malformed response body — makes `get_jenkins_jobs` return the
`{"error": <underlying message>}` dict normally instead of letting an
exception escape. -/
theorem C5_network_failures_returned_as_data
    (env : Env) (t : String) (htok : env.Token = some t) (htne : t ≠ "")
    (fqdn ss : Json) (m reason : String) (status : Nat) :
    (∀ net : Request → NetResult, (∀ r, net r = .exc m) →
       (get_jenkins_jobs env net fqdn ss).1 = .ok (.obj [("error", .str m)])) ∧
    (∀ net : Request → NetResult, ∀ body, 400 ≤ status → status < 600 →
       (∀ r, net r = .resp status reason body) →
       (get_jenkins_jobs env net fqdn ss).1 =
         .ok (.obj [("error",
           .str (raiseForStatusMsg status reason (jenkinsUrl fqdn)))])) ∧
    (∀ net : Request → NetResult, status < 400 →
       (∀ r, net r = .resp status reason (.malformed m)) →
       (get_jenkins_jobs env net fqdn ss).1 = .ok (.obj [("error", .str m)])) := by
  refine ⟨?_, ?_, ?_⟩
  · intro net hnet
    rw [get_jenkins_jobs_token_some env net fqdn ss t htok htne]
    have h2 : jenkins_request_try net (mkRequest env.JENKINS_USER t fqdn) ss =
        .error (.requestException m) := by
      simp [jenkins_request_try, hnet]
    rw [h2]
  · intro net body h400 h600 hnet
    rw [get_jenkins_jobs_token_some env net fqdn ss t htok htne]
    have h2 : jenkins_request_try net (mkRequest env.JENKINS_USER t fqdn) ss =
        .error (.requestException (raiseForStatusMsg status reason (jenkinsUrl fqdn))) := by
      simp [jenkins_request_try, hnet, h400, h600, mkRequest]
    rw [h2]
  · intro net hstatus hnet
    rw [get_jenkins_jobs_token_some env net fqdn ss t htok htne]
    have hno : ¬(400 ≤ status ∧ status < 600) := by omega
    have h2 : jenkins_request_try net (mkRequest env.JENKINS_USER t fqdn) ss =
        .error (.requestException m) := by
      simp [jenkins_request_try, hnet, hno]
    rw [h2]

/-- Witness for C5 at a concrete timeout message, a concrete 500 response,
and a concrete body parse failure. -/
theorem C5_witness :
    (get_jenkins_jobs sampleEnv (fun _ => .exc "Read timed out.")
        (.str "j.example.com") .null).1 =
      .ok (.obj [("error", .str "Read timed out.")]) ∧
    (get_jenkins_jobs sampleEnv
        (fun _ => .resp 500 "Internal Server Error" (.parsed .null))
        (.str "j.example.com") .null).1 =
      .ok (.obj [("error",
        .str (raiseForStatusMsg 500 "Internal Server Error"
          (jenkinsUrl (.str "j.example.com"))))]) ∧
    (get_jenkins_jobs sampleEnv
        (fun _ => .resp 200 "OK" (.malformed "Expecting value: line 1 column 1 (char 0)"))
        (.str "j.example.com") .null).1 =
      .ok (.obj [("error", .str "Expecting value: line 1 column 1 (char 0)")]) :=
  ⟨(C5_network_failures_returned_as_data sampleEnv "tok" rfl (by decide)
      (.str "j.example.com") .null "Read timed out." "x" 500).1
      _ (fun _ => rfl),
   (C5_network_failures_returned_as_data sampleEnv "tok" rfl (by decide)
      (.str "j.example.com") .null "m" "Internal Server Error" 500).2.1
      _ (.parsed .null) (by omega) (by omega) (fun _ => rfl),
   (C5_network_failures_returned_as_data sampleEnv "tok" rfl (by decide)
      (.str "j.example.com") .null "Expecting value: line 1 column 1 (char 0)"
      "OK" 200).2.2
      _ (by omega) (fun _ => rfl)⟩

/-- C6: with a configured token and no filter (`searchString` absent — the
Python `None` — or empty), a successful response is passed through
verbatim: the result is the remote `jobs` value unchanged, and the empty
array when the body lacks a `jobs` key. -/
theorem C6_no_filter_passthrough
    (env : Env) (t : String) (htok : env.Token = some t) (htne : t ≠ "")
    (net : Request → NetResult) (fqdn ss : Json) (status : Nat) (reason : String)
    (bodyFields : List (String × Json))
    (hnet : ∀ r, net r = .resp status reason (.parsed (.obj bodyFields)))
    (hstatus : status < 400)
    (hss : ss = .null ∨ ss = .str "") :
    (get_jenkins_jobs env net fqdn ss).1 =
      .ok (.obj [("jobs", (List.lookup "jobs" bodyFields).getD (.arr []))]) ∧
    (List.lookup "jobs" bodyFields = none →
      (get_jenkins_jobs env net fqdn ss).1 = .ok (.obj [("jobs", .arr [])])) := by
  have hft : ss.truthy = false := by
    rcases hss with h | h
    · simp [h, Json.truthy]
    · simp only [h, Json.truthy, Bool.not_eq_false']
      rfl
  have hmain : (get_jenkins_jobs env net fqdn ss).1 =
      .ok (.obj [("jobs", (List.lookup "jobs" bodyFields).getD (.arr []))]) := by
    rw [get_jenkins_jobs_token_some env net fqdn ss t htok htne]
    have h2 := jenkins_request_try_success net (mkRequest env.JENKINS_USER t fqdn)
      ss status reason bodyFields (hnet _) hstatus
    simp only [hft, Bool.false_eq_true, if_false] at h2
    rw [h2]
  exact ⟨hmain, fun hnone => by rw [hmain, hnone]; rfl⟩

/-- Witness for C6: the sample job list passes through verbatim with the
filter absent, and a body lacking a `jobs` key gives the empty array. -/
theorem C6_witness :
    (get_jenkins_jobs sampleEnv sampleNet (.str "j.example.com") .null).1 =
      .ok (.obj [("jobs",
        (List.lookup "jobs" [("jobs", Json.arr sampleJobs)]).getD (.arr []))]) ∧
    (get_jenkins_jobs sampleEnv
        (fun _ => .resp 200 "OK" (.parsed (.obj [("x", .num 1)])))
        (.str "j.example.com") .null).1 = .ok (.obj [("jobs", .arr [])]) :=
  ⟨(C6_no_filter_passthrough sampleEnv "tok" rfl (by decide) sampleNet
      (.str "j.example.com") .null 200 "OK" [("jobs", .arr sampleJobs)]
      (fun _ => rfl) (by omega) (.inl rfl)).1,
   (C6_no_filter_passthrough sampleEnv "tok" rfl (by decide) _
      (.str "j.example.com") .null 200 "OK" [("x", .num 1)]
      (fun _ => rfl) (by omega) (.inl rfl)).2 rfl⟩

/-- C7 counterexample: with the username variable unset (absent), the
credential pair encoded into the Basic header is `"None:tok"` — Python's
f-string renders `None` as the text "None" — and its base64 encoding
differs from that of `":tok"`, so the claim's "empty or absent username
gives exactly \x22:token\x22" fails for the absent case. -/
theorem C7_counterexample :
    ((get_jenkins_jobs { Token := some "tok", JENKINS_USER := none }
        (fun _ => .exc "down") (.str "jenkins.example.com") .null).2.map
          Request.authHeader)
      = ["Basic " ++ b64encode (strBytes "None:tok")] ∧
    "Basic " ++ b64encode (strBytes "None:tok") ≠
      "Basic " ++ b64encode (strBytes ":tok") := by
  constructor
  · rfl
  · decide

/-- C7 (amended): for every resolvable credential pair exactly one request
is sent and its Basic Authentication header encodes the pair
`username:token`; when the username is the empty string the encoded pair is
exactly `":token"`, and when the username variable is absent the encoded
pair is `"None:token"` (the f-string renders Python `None` as "None"). -/
theorem C7_amended_basic_auth
    (env : Env) (t : String) (htok : env.Token = some t) (htne : t ≠ "")
    (net : Request → NetResult) (fqdn ss : Json) :
    (get_jenkins_jobs env net fqdn ss).2 = [mkRequest env.JENKINS_USER t fqdn] ∧
    (mkRequest env.JENKINS_USER t fqdn).authHeader =
      "Basic " ++ b64encode (strBytes (pyOptStr env.JENKINS_USER ++ ":" ++ t)) ∧
    (env.JENKINS_USER = some "" →
      pyOptStr env.JENKINS_USER ++ ":" ++ t = ":" ++ t) ∧
    (env.JENKINS_USER = none →
      pyOptStr env.JENKINS_USER ++ ":" ++ t = "None:" ++ t) := by
  refine ⟨?_, rfl, fun h => by rw [h]; rfl, fun h => by rw [h]; rfl⟩
  rw [get_jenkins_jobs_token_some env net fqdn ss t htok htne]

/-- Witness for C7 (amended) at an empty-string username: exactly one
request was sent, its header encodes the credential pair, and the pair is
`":tok"`. -/
theorem C7_witness :
    (get_jenkins_jobs ⟨some "tok", some ""⟩ sampleNet (.str "j.example.com") .null).2 =
      [mkRequest (some "") "tok" (.str "j.example.com")] ∧
    (mkRequest (some "") "tok" (.str "j.example.com")).authHeader =
      "Basic " ++ b64encode (strBytes (pyOptStr (some "") ++ ":" ++ "tok")) ∧
    pyOptStr (some "") ++ ":" ++ "tok" = ":" ++ "tok" :=
  ⟨(C7_amended_basic_auth ⟨some "tok", some ""⟩ "tok" rfl (by decide) sampleNet
      (.str "j.example.com") .null).1,
   (C7_amended_basic_auth ⟨some "tok", some ""⟩ "tok" rfl (by decide) sampleNet
      (.str "j.example.com") .null).2.1,
   (C7_amended_basic_auth ⟨some "tok", some ""⟩ "tok" rfl (by decide) sampleNet
      (.str "j.example.com") .null).2.2.1 rfl⟩

/-- C8: every handler output is the serialization of a JSON object carrying
either a `jobs` key or an `error` key but never both — success and error
are mutually exclusive variants of the one result type. -/
theorem C8_jobs_error_mutually_exclusive (env : Env) (net : Request → NetResult)
    (ctx : Except String Json) :
    ∃ j : Json, (list_jenkins_jobs env net ctx).1 = j.dumps ∧
      ((hasKey j "jobs" = true ∧ hasKey j "error" = false) ∨
       (hasKey j "error" = true ∧ hasKey j "jobs" = false)) := by
  rcases h : list_jenkins_jobs_try env net ctx with ⟨r, tr⟩
  cases r with
  | ok v =>
    have hv : (list_jenkins_jobs_try env net ctx).1 = .ok v := by rw [h]
    refine ⟨v, by simp [list_jenkins_jobs, h], ?_⟩
    rcases list_try_ok_shape env net ctx v hv with ⟨x, rfl⟩ | ⟨m, rfl⟩
    · exact .inl ⟨rfl, rfl⟩
    · exact .inr ⟨rfl, rfl⟩
  | error e =>
    exact ⟨.obj [("error", .str e.message)], by simp [list_jenkins_jobs, h],
      .inr ⟨rfl, rfl⟩⟩

/-- C10: when the remote job array contains a job object lacking a `name`
field and a non-empty filter is given, `get_jenkins_jobs` does not return a
partial list: the `KeyError` escapes it, and the whole invocation yields the
single serialized `{"error": "'name'"}` produced by the handler's outermost
catch, discarding all jobs including well-formed ones. -/
theorem C10_missing_name_discards_all
    (env : Env) (t : String) (htok : env.Token = some t) (htne : t ≠ "")
    (net : Request → NetResult) (s : String) (hs : s ≠ "")
    (reason : String) (jobs : List Json)
    (c a : List (String × Json)) (f : Json)
    (hnet : ∀ r, net r = .resp 200 reason (.parsed (.obj [("jobs", .arr jobs)])))
    (hok : ∀ j ∈ jobs, OkJob j)
    (hmiss : ∃ fields, Json.obj fields ∈ jobs ∧ List.lookup "name" fields = none)
    (harg : List.lookup "arguments" c = some (.obj a))
    (hf : List.lookup "jenkinsServerFQDN" a = some f)
    (hft : f.truthy = true)
    (hsearch : List.lookup "searchString" a = some (.str s)) :
    (get_jenkins_jobs env net f (.str s)).1 = .error (.keyError "name") ∧
    (list_jenkins_jobs env net (.ok (.obj c))).1 =
      "\x7b\"error\": \"\x27name\x27\"\x7d" := by
  have hne : s.isEmpty = false := by
    cases hne : s.isEmpty
    · rfl
    · exact absurd ((String.isEmpty_iff s).mp hne) hs
  have hmain : ∀ fq : Json, get_jenkins_jobs env net fq (.str s) =
      (.error (.keyError "name"), [mkRequest env.JENKINS_USER t fq]) := by
    intro fq
    rw [get_jenkins_jobs_token_some env net fq (.str s) t htok htne]
    have h2 : jenkins_request_try net (mkRequest env.JENKINS_USER t fq) (.str s) =
        .error (.keyError "name") := by
      rw [jenkins_request_try_success net _ (.str s) 200 reason _ (hnet _) (by omega)]
      simp [Json.truthy, hne, pyLower, filterJobs, List.lookup, Except.map,
        filterJobsList_missing_name (lowerStr s) jobs hok hmiss]
    rw [h2]
  refine ⟨by rw [hmain f], ?_⟩
  have htry := list_try_args env net c a harg
  rw [hf, Option.getD_some, hsearch, Option.getD_some] at htry
  simp only [hft, if_true] at htry
  rw [hmain f] at htry
  simp only [list_jenkins_jobs, htry]
  rfl

/-- Witness for C10: the second job lacks `name`; the well-formed first job
is discarded too. -/
theorem C10_witness :
    (get_jenkins_jobs sampleEnv
        (fun _ => .resp 200 "OK" (.parsed (.obj [("jobs",
          .arr [jobPipelineA, .obj [("url", .str "https://j/x")]])])))
        (.str "jenkins.example.com") (.str "pipe")).1 =
      .error (.keyError "name") ∧
    (list_jenkins_jobs sampleEnv
        (fun _ => .resp 200 "OK" (.parsed (.obj [("jobs",
          .arr [jobPipelineA, .obj [("url", .str "https://j/x")]])])))
        (.ok (.obj [("arguments", .obj
          [("jenkinsServerFQDN", .str "jenkins.example.com"),
           ("searchString", .str "pipe")])]))).1 =
      "\x7b\"error\": \"\x27name\x27\"\x7d" :=
  C10_missing_name_discards_all sampleEnv "tok" rfl (by decide) _ "pipe" (by decide)
    "OK" [jobPipelineA, .obj [("url", .str "https://j/x")]]
    [("arguments", .obj [("jenkinsServerFQDN", .str "jenkins.example.com"),
                         ("searchString", .str "pipe")])]
    [("jenkinsServerFQDN", .str "jenkins.example.com"),
     ("searchString", .str "pipe")]
    (.str "jenkins.example.com")
    (fun _ => rfl)
    (by
      intro j hj
      simp only [List.mem_cons, List.not_mem_nil, or_false] at hj
      rcases hj with rfl | rfl
      · exact ⟨_, rfl, .inr ⟨"Pipeline-A", rfl⟩⟩
      · exact ⟨_, rfl, .inl rfl⟩)
    ⟨[("url", .str "https://j/x")], by simp, rfl⟩
    rfl rfl (by decide) rfl

/-- C9: the handler is deterministic: two invocations with the same
environment, the same remote behavior and the same raw context produce
byte-identical output strings (and identical request traces); in this
embedding the handler is a pure function of exactly these three inputs, so
no hidden state can influence the result between calls. -/
theorem C9_deterministic (env env2 : Env) (net net2 : Request → NetResult)
    (ctx ctx2 : Except String Json)
    (h1 : env = env2) (h2 : net = net2) (h3 : ctx = ctx2) :
    list_jenkins_jobs env net ctx = list_jenkins_jobs env2 net2 ctx2 := by
  rw [h1, h2, h3]

/-- Witness for C9 at a concrete repeated invocation. -/
theorem C9_witness :
    list_jenkins_jobs ⟨some "tok", none⟩ (fun _ => .exc "down") (.error "bad") =
      list_jenkins_jobs ⟨some "tok", none⟩ (fun _ => .exc "down") (.error "bad") :=
  C9_deterministic _ _ _ _ _ _ rfl rfl rfl

end JenkinsMCP
